import Mathlib

/-
Verification development for the flash-request HTTP client (src/index.ts).

Shallow embedding conventions:
  * JavaScript strings are modelled as `List Char` (`Str`).
  * JavaScript dynamic values that can appear as request bodies are `JsValue`;
    parsed JSON payloads are `Json`.
  * Asynchronous code that can reject is modelled in `Except Fault`; a thrown
    value is a `Fault` (the `message` property of a JS `Error`, `none` when the
    thrown value has no message property).
  * The external transport capability (global `fetch`) and the JSON
    serialization primitive (`JSON.stringify`) are out-of-scope collaborators;
    they appear as function-valued fields of `Env` so theorems quantify over
    their behaviour.  `response.json()`/`response.text()` parsing of the body
    is likewise external: a `RawResponse` carries the parse outcome directly
    (`jsonBody = none` models a rejected `response.json()` call, in which case
    the raw text body is used, as in src/index.ts lines 140-146).
  * `request` additionally returns a `Nat` counting how many times the
    transport capability was invoked on that call, so that "no transport call
    occurs" claims are expressible.  Logging (`this.log`) only writes to the
    console and never affects control flow, so it is dropped.
-/

namespace FlashRequest

/-- Characters of a JavaScript string. -/
abbrev Str := List Char

/-- HttpMethod from src/index.ts line 1. -/
inductive HttpMethod
  | GET
  | POST
  | PUT
  | PATCH
  | DELETE
deriving DecidableEq

/-- Parsed JSON data, as produced by `response.json()`. -/
inductive Json
  | null
  | bool (b : Bool)
  | num (n : Int)
  | str (s : Str)
  | arr (elems : List Json)
  | obj (fields : List (Str × Json))

/-- JavaScript values that can be passed as a request body (`body?: any`).
`undef` is the absent/`undefined` body; `obj` covers every object-shaped
value (objects and arrays), whose `typeof` is "object". -/
inductive JsValue
  | undef
  | null
  | bool (b : Bool)
  | num (n : Int)
  | str (s : Str)
  | obj (j : Json)

/-- JavaScript truthiness of a `JsValue`: `undefined`, `null`, `false`, `0`
and the empty string are falsy, every object is truthy. -/
def jsTruthy : JsValue → Bool
  | .undef => false
  | .null => false
  | .bool b => b
  | .num n => n != 0
  | .str s => ! s.isEmpty
  | .obj _ => true

/-- validateRequestBody from src/index.ts lines 71-76: admits `null`,
`undefined` and any `typeof body === "object"` value; rejects the rest
(primitives), with only a diagnostic log. -/
def validateRequestBody : JsValue → Bool
  | .null => true
  | .undef => true
  | .obj _ => true
  | _ => false

/-- Error tags of ApiError, src/index.ts line 10. -/
inductive ErrorType
  | NETWORK_ERROR
  | TIMEOUT_ERROR
  | VALIDATION_ERROR
  | API_ERROR
  | UNKNOWN_ERROR
deriving DecidableEq

/-- A thrown JavaScript value, as observed by a `catch (err)` handler:
`message` is `err.message` (`none` when that property is nullish). -/
structure Fault where
  message : Option Str
deriving DecidableEq

/-- Payload of the untyped `details?: any` field of ApiError: either a parsed
response payload or a caught fault. -/
inductive Details
  | json (j : Json)
  | fault (f : Fault)

/-- ApiError from src/index.ts lines 9-14.  `message` is kept as a `Json`
value because the code stores `responseData?.message` (an `any`) there. -/
structure ApiError where
  type : ErrorType
  message : Json
  status : Option Nat := none
  details : Option Details := none

/-- ApiResponse from src/index.ts lines 16-20. -/
structure ApiResponse where
  success : Bool
  data : Option Json := none
  error : Option ApiError := none

/-- Request configuration handed to request interceptors
(src/index.ts lines 23-28 and 120). -/
structure RequestConfig where
  url : Str
  method : HttpMethod
  headers : List (Str × Str)
  body : JsValue

/-- Code points left unescaped by JavaScript `encodeURIComponent`:
A-Z, a-z, 0-9 and - _ . ! ~ * ' ( ). -/
def isUnreservedCode (n : Nat) : Bool :=
  (65 ≤ n && n ≤ 90) || (97 ≤ n && n ≤ 122) || (48 ≤ n && n ≤ 57) ||
  n == 45 || n == 95 || n == 46 || n == 33 || n == 126 ||
  n == 42 || n == 39 || n == 40 || n == 41

def isUnreserved (c : Char) : Bool := isUnreservedCode c.toNat

/-- Uppercase hexadecimal digit for n < 16. -/
def hexDigit (n : Nat) : Char :=
  if n < 10 then Char.ofNat (48 + n) else Char.ofNat (55 + n)

/-- Percent-escape of one byte, e.g. 58 ↦ "%3A". -/
def percentByte (b : Nat) : Str :=
  ['%', hexDigit (b / 16), hexDigit (b % 16)]

/-- UTF-8 bytes of a Unicode code point. -/
def utf8Bytes (n : Nat) : List Nat :=
  if n < 128 then [n]
  else if n < 2048 then [192 + n / 64, 128 + n % 64]
  else if n < 65536 then [224 + n / 4096, 128 + (n / 64) % 64, 128 + n % 64]
  else [240 + n / 262144, 128 + (n / 4096) % 64, 128 + (n / 64) % 64, 128 + n % 64]

/-- JavaScript `encodeURIComponent`: unreserved characters are kept,
every other character is replaced by the percent-escapes of its UTF-8
bytes. -/
def encodeURIComponent : Str → Str
  | [] => []
  | c :: rest =>
      (if isUnreserved c then [c] else (utf8Bytes c.toNat).flatMap percentByte) ++
        encodeURIComponent rest

/-- JavaScript `s.replace(pat, rep)` with a string pattern: replaces the
first occurrence of `pat` in `s` (the whole string unchanged when `pat`
does not occur). -/
def replaceFirst (pat rep : Str) : Str → Str
  | [] => if pat.isPrefixOf ([] : Str) then rep ++ ([] : Str) else []
  | c :: rest =>
      if pat.isPrefixOf (c :: rest) then rep ++ (c :: rest).drop pat.length
      else c :: replaceFirst pat rep rest

/-- Whether `pat` occurs as a contiguous substring of the second argument. -/
def hasSubstr (pat : Str) : Str → Bool
  | [] => pat.isPrefixOf ([] : Str)
  | c :: rest => pat.isPrefixOf (c :: rest) || hasSubstr pat rest

/-- Splits a string around the first occurrence of `pat`:
`splitFirst pat s = some (pre, post)` iff `s = pre ++ pat ++ post` at the
first occurrence of `pat`; `none` when `pat` does not occur. -/
def splitFirst (pat : Str) : Str → Option (Str × Str)
  | [] => if pat.isPrefixOf ([] : Str) then some ([], []) else none
  | c :: rest =>
      if pat.isPrefixOf (c :: rest) then some ([], (c :: rest).drop pat.length)
      else (splitFirst pat rest).map fun pr => (c :: pr.1, pr.2)

/-- Path-parameter substitution step of buildUrl, src/index.ts lines 55-59:
for each key, in mapping order, `url = url.replace(":" + key,
encodeURIComponent(String(value)))`.  Parameter values are taken after the
`String(...)` conversion. -/
def pathSubst (pathParams : List (Str × Str)) (url : Str) : Str :=
  pathParams.foldl
    (fun u kv => replaceFirst (':' :: kv.1) (encodeURIComponent kv.2) u) url

/-- One serialized query pair, src/index.ts line 63:
`encodeURIComponent(k) + "=" + encodeURIComponent(String(v))`. -/
def queryPair (kv : Str × Str) : Str :=
  encodeURIComponent kv.1 ++ '=' :: encodeURIComponent kv.2

/-- JavaScript `Array.prototype.join(sep)`. -/
def joinSep (sep : Str) : List Str → Str
  | [] => []
  | [s] => s
  | s :: rest => s ++ sep ++ joinSep sep rest

/-- Serialized query string, src/index.ts lines 62-64. -/
def queryString (queryParams : List (Str × Str)) : Str :=
  joinSep (['&']) (queryParams.map queryPair)

/-- buildUrl from src/index.ts lines 52-69.  Record-valued parameters are
association lists in key-insertion order; an absent (`undefined`) mapping
behaves exactly like the empty list, so both are modelled by `[]`. -/
def buildUrl (baseURL endpoint : Str) (pathParams queryParams : List (Str × Str)) : Str :=
  let url := pathSubst pathParams (baseURL ++ endpoint)
  let query := queryString queryParams
  if query = [] then url else url ++ '?' :: query

/-- JavaScript truthiness of a parsed JSON value. -/
def jsonTruthy : Json → Bool
  | .null => false
  | .bool b => b
  | .num n => n != 0
  | .str s => ! s.isEmpty
  | .arr _ => true
  | .obj _ => true

/-- Property lookup on an association list (JS object). -/
def lookupField (k : Str) : List (Str × Json) → Option Json
  | [] => none
  | kv :: rest => if kv.1 = k then some kv.2 else lookupField k rest

/-- The `responseData?.message` access of src/index.ts line 156: `none`
models `undefined` (non-object receiver or absent property). -/
def getMessage : Json → Option Json
  | .obj fields => lookupField ('m' :: 'e' :: 's' :: 's' :: 'a' :: 'g' :: 'e' :: []) fields
  | _ => none

/-- JavaScript `x || dflt` on an optional value: the value when truthy,
otherwise the (string) default. -/
def jsOrDefault (o : Option Json) (dflt : Str) : Json :=
  match o with
  | some v => if jsonTruthy v then v else .str dflt
  | none => .str dflt

/-- `response.ok` of the fetch API: status in the 2xx acceptance range. -/
def responseOk (status : Nat) : Bool :=
  200 ≤ status && status < 300

/-- Response classification, src/index.ts lines 150-163: non-ok statuses
become an API_ERROR envelope carrying the payload, ok statuses a success
envelope. -/
def classify (status : Nat) (responseData : Json) : ApiResponse :=
  if ! responseOk status then
    { success := false
      data := none
      error := some
        { type := .API_ERROR
          message := jsOrDefault (getMessage responseData) ("Request failed").data
          status := some status
          details := some (.json responseData) } }
  else { success := true, data := some responseData, error := none }

/-- The VALIDATION_ERROR envelope of src/index.ts lines 114-117. -/
def validationEnvelope : ApiResponse :=
  { success := false
    error := some { type := .VALIDATION_ERROR, message := .str ("Invalid request body").data } }

/-- The VALIDATION_ERROR envelope of src/index.ts lines 129-132 (a
`JSON.stringify` fault). -/
def stringifyEnvelope (e : Fault) : ApiResponse :=
  { success := false
    error := some
      { type := .VALIDATION_ERROR
        message := .str ("Failed to stringify request body").data
        details := some (.fault e) } }

/-- The NETWORK_ERROR envelope built by the top-level catch handler,
src/index.ts lines 168-175: message is `err.message ?? "Network error"`. -/
def networkEnvelope (f : Fault) : ApiResponse :=
  { success := false
    error := some
      { type := .NETWORK_ERROR
        message := .str (f.message.getD ("Network error").data)
        details := some (.fault f) } }

/-- The shared loop of runRequestInterceptors (src/index.ts lines 78-89) and
runResponseInterceptors (lines 91-97): `for (const interceptor of list)
updated = await interceptor(updated)`.  An interceptor rejection aborts the
loop and propagates. -/
def runChain {α : Type} : List (α → Except Fault α) → α → Except Fault α
  | [], x => .ok x
  | t :: rest, x =>
      match t x with
      | .ok y => runChain rest y
      | .error f => .error f

/-- Raw outcome of a resolved transport call: the status code together with
the body-decoding outcome (`jsonBody = none` models `response.json()`
rejecting, in which case `textBody` is used, src/index.ts lines 140-146). -/
structure RawResponse where
  status : Nat
  jsonBody : Option Json
  textBody : Str

/-- `responseData` after the parse-or-fallback of src/index.ts lines 140-146. -/
def responseDataOf (raw : RawResponse) : Json :=
  match raw.jsonBody with
  | some j => j
  | none => .str raw.textBody

/-- Per-instance state and external capabilities of an ApiService instance
(src/index.ts lines 32-44).  `fetch` is the transport capability (url,
method, headers, optional serialized body); `stringify` is the external
`JSON.stringify` primitive.  The logging flag is omitted: logging is
observational only. -/
structure Env where
  baseURL : Str
  defaultHeaders : List (Str × Str)
  requestInterceptors : List (RequestConfig → Except Fault RequestConfig)
  responseInterceptors : List (ApiResponse → Except Fault ApiResponse)
  fetch : Str → HttpMethod → List (Str × Str) → Option Str → Except Fault RawResponse
  stringify : JsValue → Except Fault Str

/-- runRequestInterceptors, src/index.ts lines 78-89. -/
def runRequestInterceptors (env : Env) (config : RequestConfig) : Except Fault RequestConfig :=
  runChain env.requestInterceptors config

/-- runResponseInterceptors, src/index.ts lines 91-97. -/
def runResponseInterceptors (env : Env) (response : ApiResponse) : Except Fault ApiResponse :=
  runChain env.responseInterceptors response

/-- addRequestInterceptor, src/index.ts lines 206-208 (`Array.push`). -/
def addRequestInterceptor (env : Env) (t : RequestConfig → Except Fault RequestConfig) : Env :=
  { env with requestInterceptors := env.requestInterceptors ++ [t] }

/-- addResponseInterceptor, src/index.ts lines 210-212 (`Array.push`). -/
def addResponseInterceptor (env : Env) (t : ApiResponse → Except Fault ApiResponse) : Env :=
  { env with responseInterceptors := env.responseInterceptors ++ [t] }

/-- JavaScript object spread `{ ...a, ...b }` for duplicate-free string
records: keys of `a` keep their position (value overridden by `b` when
present there), keys only in `b` follow. -/
def spread (a b : List (Str × Str)) : List (Str × Str) :=
  a.map (fun kv =>
    (kv.1, match b.find? (fun kv2 => kv2.1 = kv.1) with
           | some kv2 => kv2.2
           | none => kv.2)) ++
  b.filter (fun kv2 => (a.find? (fun kv => kv.1 = kv2.1)).isNone)

/-- Per-call options of `request` (src/index.ts lines 102-107).  `body` is
`JsValue.undef` when absent; absent record options are the empty list. -/
structure ReqOptions where
  body : JsValue := .undef
  headers : List (Str × Str) := []
  pathParams : List (Str × Str) := []
  queryParams : List (Str × Str) := []

/-- Per-call options of the bodyless convenience methods (`Omit<..., "body">`). -/
structure ReqOptionsNoBody where
  headers : List (Str × Str) := []
  pathParams : List (Str × Str) := []
  queryParams : List (Str × Str) := []

def optionsOfNoBody (o : ReqOptionsNoBody) : ReqOptions :=
  { body := .undef, headers := o.headers
    pathParams := o.pathParams, queryParams := o.queryParams }

/-- The request configuration built at src/index.ts lines 110-120: built
URL, defaults-then-caller headers, and the caller's body. -/
def initialConfig (env : Env) (method : HttpMethod) (endpoint : Str) (options : ReqOptions) : RequestConfig :=
  { url := buildUrl env.baseURL endpoint options.pathParams options.queryParams
    method := method
    headers := spread env.defaultHeaders options.headers
    body := options.body }

/-- Body serialization step, src/index.ts lines 125-134: a truthy body is
passed to `JSON.stringify` (a fault there is caught locally), a falsy body
leaves `fetchOptions.body` unset. -/
def bodyStringify (env : Env) (config : RequestConfig) : Except Fault (Option Str) :=
  if jsTruthy config.body then
    match env.stringify config.body with
    | .ok s => .ok (some s)
    | .error e => .error e
  else .ok none

/-- Transport invocation and response classification, src/index.ts lines
138-165: one `fetch` call, parse-or-fallback of the body, classification,
then the response-interceptor chain.  The `Nat` counts transport
invocations. -/
def requestFetch (env : Env) (config : RequestConfig) (bodyStr : Option Str) :
    Except Fault ApiResponse × Nat :=
  match env.fetch config.url config.method config.headers bodyStr with
  | .error f => (.error f, 1)
  | .ok raw =>
      (runResponseInterceptors env (classify raw.status (responseDataOf raw)), 1)

/-- Body of the `try` block of `request`, src/index.ts lines 109-165.  The
two VALIDATION_ERROR envelopes are returned directly (they do not pass
through the response interceptors); a request-interceptor fault, a
transport fault or a first-run response-interceptor fault is an `.error`
outcome, to be handled by the catch clause. -/
def requestTry (env : Env) (method : HttpMethod) (endpoint : Str) (options : ReqOptions) :
    Except Fault ApiResponse × Nat :=
  if jsTruthy options.body && ! validateRequestBody options.body then
    (.ok validationEnvelope, 0)
  else
    match runRequestInterceptors env (initialConfig env method endpoint options) with
    | .error f => (.error f, 0)
    | .ok config =>
        match bodyStringify env config with
        | .error e => (.ok (stringifyEnvelope e), 0)
        | .ok bodyStr => requestFetch env config bodyStr

/-- request, src/index.ts lines 99-178: the `try` body, and on a fault the
catch handler of lines 166-177, which builds the NETWORK_ERROR envelope
and passes it through the response-interceptor chain; a fault raised there
propagates to the caller. -/
def request (env : Env) (method : HttpMethod) (endpoint : Str) (options : ReqOptions) :
    Except Fault ApiResponse × Nat :=
  match requestTry env method endpoint options with
  | (.ok r, n) => (.ok r, n)
  | (.error f, n) => (runResponseInterceptors env (networkEnvelope f), n)

/-- get, src/index.ts lines 181-183. -/
def get (env : Env) (endpoint : Str) (options : ReqOptionsNoBody) : Except Fault ApiResponse × Nat :=
  request env .GET endpoint (optionsOfNoBody options)

/-- post, src/index.ts lines 185-187. -/
def post (env : Env) (endpoint : Str) (body : JsValue) (options : ReqOptionsNoBody) :
    Except Fault ApiResponse × Nat :=
  request env .POST endpoint { optionsOfNoBody options with body := body }

/-- put, src/index.ts lines 189-191. -/
def put (env : Env) (endpoint : Str) (body : JsValue) (options : ReqOptionsNoBody) :
    Except Fault ApiResponse × Nat :=
  request env .PUT endpoint { optionsOfNoBody options with body := body }

/-- patch, src/index.ts lines 193-195. -/
def patch (env : Env) (endpoint : Str) (body : JsValue) (options : ReqOptionsNoBody) :
    Except Fault ApiResponse × Nat :=
  request env .PATCH endpoint { optionsOfNoBody options with body := body }

/-- delete, src/index.ts lines 197-199. -/
def delete (env : Env) (endpoint : Str) (options : ReqOptionsNoBody) :
    Except Fault ApiResponse × Nat :=
  request env .DELETE endpoint (optionsOfNoBody options)

/-- setDefaultHeader, src/index.ts lines 202-204 (`obj[key] = value`):
overwrites in place, or appends a new key. -/
def setDefaultHeader (env : Env) (key value : Str) : Env :=
  { env with defaultHeaders :=
      if (env.defaultHeaders.find? (fun kv => kv.1 = key)).isSome then
        env.defaultHeaders.map (fun kv => if kv.1 = key then (kv.1, value) else kv)
      else env.defaultHeaders ++ [(key, value)] }

/-! Observers used to state claims. -/

/-- Whether a pipeline outcome resolved (did not propagate a fault). -/
def resultIsOk : Except Fault ApiResponse → Bool
  | .ok _ => true
  | .error _ => false

/-- Error tag of an envelope, when one is set. -/
def errorTypeOf (resp : ApiResponse) : Option ErrorType :=
  match resp.error with
  | some e => some e.type
  | none => none

/-- Error tag of a resolved pipeline outcome. -/
def resultErrorType : Except Fault ApiResponse → Option ErrorType
  | .ok resp => errorTypeOf resp
  | .error _ => none

/-- Success flag of a resolved pipeline outcome. -/
def resultSuccess : Except Fault ApiResponse → Option Bool
  | .ok resp => some resp.success
  | .error _ => none

/-- Primitive (non-null, non-undefined, non-object) bodies: strings,
numbers, booleans. -/
def isPrimitiveBody : JsValue → Bool
  | .str _ => true
  | .num _ => true
  | .bool _ => true
  | _ => false

/-- Envelope invariant claimed by the spec: `success` is true iff `error`
is absent, and exactly one of `data`/`error` is populated. -/
def envelopeInvariant (resp : ApiResponse) : Prop :=
  resp.success = resp.error.isNone ∧ resp.data.isSome = resp.error.isNone

/-! Spec-side definitions: these follow the words of individual claims
(not the source) and are compared with the source-derived definitions in
refinement theorems and counterexamples. -/

/-- Modelled from the words of claim C7: with zero query entries nothing is
appended; with N entries, a question mark followed by the N percent-encoded
pairs joined by ampersands. -/
def querySuffixSpec (queryParams : List (Str × Str)) : Str :=
  if queryParams = [] then []
  else '?' :: joinSep (['&']) (queryParams.map queryPair)

/-- Modelled from the amended claim C4: on a status outside the 2xx range,
a success-false envelope with tag API_ERROR, the numeric status, the full
payload as details, and as message the payload's message field when that
field is present and truthy, the fixed fallback text otherwise; on a 2xx
status, a success-true envelope holding the payload. -/
def classifySpecAmended (status : Nat) (payload : Json) : ApiResponse :=
  if 200 ≤ status ∧ status < 300 then
    { success := true, data := some payload, error := none }
  else
    { success := false
      data := none
      error := some
        { type := .API_ERROR
          message :=
            match getMessage payload with
            | some m => if jsonTruthy m then m else .str ("Request failed").data
            | none => .str ("Request failed").data
          status := some status
          details := some (.json payload) } }

/-- Segments of a partially substituted template: `raw` text comes from the
original template, `sub` text was produced by an earlier substitution. -/
inductive Seg
  | raw (s : Str)
  | sub (s : Str)

/-- Replacement of the first occurrence of `pat` that lies entirely inside
original-template text, never scanning text produced by earlier
substitutions. -/
def replaceFirstSegs (pat rep : Str) : List Seg → List Seg
  | [] => []
  | .raw s :: rest =>
      match splitFirst pat s with
      | some pr => .raw pr.1 :: .sub rep :: .raw pr.2 :: rest
      | none => .raw s :: replaceFirstSegs pat rep rest
  | .sub s :: rest => .sub s :: replaceFirstSegs pat rep rest

def flattenSegs : List Seg → Str
  | [] => []
  | .raw s :: rest => s ++ flattenSegs rest
  | .sub s :: rest => s ++ flattenSegs rest

/-- Modelled from the words of claim C9: for each key in order, the token
made of a colon and the key is replaced by the percent-encoded value, and
text already produced by earlier substitutions is never re-scanned. -/
def pathSubstClaimed (pathParams : List (Str × Str)) (template : Str) : Str :=
  flattenSegs
    (pathParams.foldl
      (fun segs kv => replaceFirstSegs (':' :: kv.1) (encodeURIComponent kv.2) segs)
      [Seg.raw template])

/-! Concrete instances used by witnesses and counterexamples. -/

/-- A transport that resolves with status 200 and a JSON `null` payload. -/
def okFetch : Str → HttpMethod → List (Str × Str) → Option Str → Except Fault RawResponse :=
  fun _ _ _ _ => .ok { status := 200, jsonBody := some .null, textBody := [] }

/-- A transport whose invocation rejects (connection refused). -/
def refusedFault : Fault := { message := some ("connection refused").data }

def failFetch : Str → HttpMethod → List (Str × Str) → Option Str → Except Fault RawResponse :=
  fun _ _ _ _ => .error refusedFault

def okStringify : JsValue → Except Fault Str := fun _ => .ok []

/-- A service instance with no interceptors, default construction values and
the resolving transport. -/
def baseEnv : Env :=
  { baseURL := []
    defaultHeaders := [(("Content-Type").data, ("application/json").data)]
    requestInterceptors := []
    responseInterceptors := []
    fetch := okFetch
    stringify := okStringify }

def boomFault : Fault := { message := some ("boom").data }

/-- A request interceptor that always rejects. -/
def throwingReqInterceptor : RequestConfig → Except Fault RequestConfig :=
  fun _ => .error boomFault

/-- A response interceptor that rejects exactly on success envelopes. -/
def throwOnSuccess : ApiResponse → Except Fault ApiResponse :=
  fun r => if r.success then .error boomFault else .ok r

/-- A response interceptor that always rejects. -/
def alwaysThrow : ApiResponse → Except Fault ApiResponse :=
  fun _ => .error boomFault

/-- A service instance whose only request interceptor rejects. -/
def envReqThrow : Env := { baseEnv with requestInterceptors := [throwingReqInterceptor] }

/-- A service instance whose only response interceptor rejects on success
envelopes. -/
def envRespThrowOnSuccess : Env := { baseEnv with responseInterceptors := [throwOnSuccess] }

/-- A service instance whose only response interceptor always rejects. -/
def envRespAlwaysThrow : Env := { baseEnv with responseInterceptors := [alwaysThrow] }

/-- A service instance whose transport invocation rejects. -/
def envFetchFail : Env := { baseEnv with fetch := failFetch }

/-! Helper lemmas. -/

theorem runChain_append {α : Type} (ts : List (α → Except Fault α))
    (t : α → Except Fault α) (x : α) :
    runChain (ts ++ [t]) x = (runChain ts x).bind t := by
  induction ts generalizing x with
  | nil => cases h : t x <;> simp [runChain, h, Except.bind]
  | cons a as ih => cases h : a x <;> simp [runChain, h, Except.bind, ih]

theorem queryPair_ne_nil (kv : Str × Str) : queryPair kv ≠ [] := by
  unfold queryPair
  cases h : encodeURIComponent kv.1 <;> simp [h]

theorem joinSep_cons_ne_nil (sep s : Str) (rest : List Str) (hs : s ≠ []) :
    joinSep sep (s :: rest) ≠ [] := by
  cases rest <;> simp [joinSep, hs]

theorem replaceFirst_of_not_hasSubstr (pat rep u : Str) (h : hasSubstr pat u = false) :
    replaceFirst pat rep u = u := by
  induction u with
  | nil =>
    simp only [hasSubstr] at h
    simp [replaceFirst, h]
  | cons c rest ih =>
    simp only [hasSubstr, Bool.or_eq_false_iff] at h
    simp [replaceFirst, h.1, ih h.2]

theorem char_toNat_lt (c : Char) : c.toNat < 1114112 := by
  have h := c.valid
  rcases h with h | h
  · have : c.val.toNat < 55296 := h
    show c.val.toNat < 1114112
    omega
  · exact h.2

theorem utf8Bytes_lt (n : Nat) (hn : n < 1114112) : ∀ b ∈ utf8Bytes n, b < 256 := by
  intro b hb
  unfold utf8Bytes at hb
  split_ifs at hb with h1 h2 h3
  · simp at hb; omega
  · simp at hb; rcases hb with rfl | rfl <;> omega
  · simp at hb; rcases hb with rfl | rfl | rfl <;> omega
  · simp at hb; rcases hb with rfl | rfl | rfl | rfl <;> omega

theorem hexDigit_ne_colon : ∀ n, n < 16 → hexDigit n ≠ ':' := by decide

theorem percentByte_ne_colon (b : Nat) (hb : b < 256) : ∀ c ∈ percentByte b, c ≠ ':' := by
  intro c hc
  unfold percentByte at hc
  simp at hc
  rcases hc with rfl | rfl | rfl
  · decide
  · exact hexDigit_ne_colon _ (by omega)
  · exact hexDigit_ne_colon _ (by omega)

theorem encode_ne_colon : ∀ s : Str, ∀ c ∈ encodeURIComponent s, c ≠ ':' := by
  intro s
  induction s with
  | nil => intro c hc; simp [encodeURIComponent] at hc
  | cons a rest ih =>
    intro c hc
    rw [encodeURIComponent] at hc
    rcases List.mem_append.mp hc with hc | hc
    · by_cases h : isUnreserved a
      · rw [if_pos h] at hc
        simp at hc
        subst hc
        intro hEq
        rw [hEq] at h
        exact absurd h (by decide)
      · rw [if_neg h] at hc
        rcases List.mem_flatMap.mp hc with ⟨b, hb1, hb2⟩
        exact percentByte_ne_colon b (utf8Bytes_lt a.toNat (char_toNat_lt a) b hb1) c hb2
    · exact ih c hc

theorem splitFirst_some (pat rep : Str) : ∀ u pre post : Str,
    splitFirst pat u = some (pre, post) →
    replaceFirst pat rep u = pre ++ rep ++ post ∧ u = pre ++ pat ++ post := by
  intro u
  induction u with
  | nil =>
    intro pre post h
    by_cases hp : pat.isPrefixOf ([] : Str)
    · rw [splitFirst, if_pos hp] at h
      have hpat : pat = [] :=
        List.prefix_nil.mp (List.isPrefixOf_iff_prefix.mp hp)
      obtain ⟨rfl, rfl⟩ := Prod.mk.injEq .. ▸ Option.some.inj h
      simp [replaceFirst, hp, hpat]
    · rw [splitFirst, if_neg hp] at h
      exact absurd h (by simp)
  | cons c rest ih =>
    intro pre post h
    by_cases hp : pat.isPrefixOf (c :: rest)
    · rw [splitFirst, if_pos hp] at h
      obtain ⟨t, ht⟩ := List.isPrefixOf_iff_prefix.mp hp
      obtain ⟨rfl, rfl⟩ := Prod.mk.injEq .. ▸ Option.some.inj h
      constructor
      · rw [replaceFirst, if_pos hp, ← ht, List.drop_left]
        simp
      · rw [← ht, List.drop_left]
        simp
    · rw [splitFirst, if_neg hp] at h
      rcases Option.map_eq_some'.mp h with ⟨pr, hpr, heq⟩
      obtain ⟨rfl, rfl⟩ := Prod.mk.injEq .. ▸ heq
      obtain ⟨ih1, ih2⟩ := ih pr.1 pr.2 hpr
      constructor
      · rw [replaceFirst, if_neg hp, ih1]; simp
      · rw [List.cons_append, List.cons_append, ← ih2]

theorem splitFirst_none (pat rep : Str) : ∀ u : Str,
    splitFirst pat u = none → replaceFirst pat rep u = u := by
  intro u
  induction u with
  | nil =>
    intro h
    by_cases hp : pat.isPrefixOf ([] : Str)
    · rw [splitFirst, if_pos hp] at h; exact absurd h (by simp)
    · simp [replaceFirst, hp]
  | cons c rest ih =>
    intro h
    by_cases hp : pat.isPrefixOf (c :: rest)
    · rw [splitFirst, if_pos hp] at h; exact absurd h (by simp)
    · rw [splitFirst, if_neg hp] at h
      rw [replaceFirst, if_neg hp, ih (Option.map_eq_none'.mp h)]

/-! Claim theorems. -/

/-- C1 (counterexample): a request in which the single registered request
interceptor rejects.  The transport is never invoked and a success-false
envelope is returned, but its error tag is NETWORK_ERROR, not the claimed
UNKNOWN_ERROR. -/
theorem c1_counterexample :
    (request envReqThrow .GET [] {}).2 = 0 ∧
    resultSuccess (request envReqThrow .GET [] {}).1 = some false ∧
    resultErrorType (request envReqThrow .GET [] {}).1 = some .NETWORK_ERROR ∧
    ErrorType.NETWORK_ERROR ≠ ErrorType.UNKNOWN_ERROR :=
  ⟨rfl, rfl, rfl, by decide⟩

/-- C1 (amended): when a request interceptor rejects (after the body check
passed), the transport is never invoked and the catch handler builds a
success-false envelope whose error tag is NETWORK_ERROR, which is passed
through the response-interceptor chain and returned. -/
theorem c1_theorem (env : Env) (m : HttpMethod) (ep : Str) (o : ReqOptions) (f : Fault)
    (hval : (jsTruthy o.body && ! validateRequestBody o.body) = false)
    (hreq : runRequestInterceptors env (initialConfig env m ep o) = .error f) :
    (request env m ep o).2 = 0 ∧
    (request env m ep o).1 = runResponseInterceptors env (networkEnvelope f) ∧
    (networkEnvelope f).success = false ∧
    errorTypeOf (networkEnvelope f) = some .NETWORK_ERROR := by
  have htry : requestTry env m ep o = (.error f, 0) := by
    simp [requestTry, hval, hreq]
  refine ⟨?_, ?_, rfl, rfl⟩ <;> simp [request, htry]

theorem c1_theorem_witness :
    runRequestInterceptors envReqThrow (initialConfig envReqThrow .GET [] {}) = .error boomFault ∧
    ((request envReqThrow .GET [] {}).2 = 0 ∧
     (request envReqThrow .GET [] {}).1 = runResponseInterceptors envReqThrow (networkEnvelope boomFault) ∧
     (networkEnvelope boomFault).success = false ∧
     errorTypeOf (networkEnvelope boomFault) = some .NETWORK_ERROR) :=
  ⟨rfl, c1_theorem envReqThrow .GET [] {} boomFault rfl rfl⟩

/-- C2 (counterexample): a request in which the single registered response
interceptor rejects during the first chain run (it rejects exactly on
success envelopes, and this request classifies to a success envelope).
The fault does not propagate to the caller of `get`: the call resolves
normally, with a NETWORK_ERROR error envelope. -/
theorem c2_counterexample :
    runResponseInterceptors envRespThrowOnSuccess (classify 200 Json.null) = .error boomFault ∧
    resultIsOk (get envRespThrowOnSuccess [] {}).1 = true ∧
    resultErrorType (get envRespThrowOnSuccess [] {}).1 = some .NETWORK_ERROR :=
  ⟨rfl, rfl, rfl⟩

/-- C2 (amended): a response-interceptor fault during the first chain run is
caught by the top-level handler; only a fault raised during the catch
handler's second chain run (on the NETWORK_ERROR envelope) propagates to
the immediate caller of `get`. -/
theorem c2_theorem (env : Env) (ep : Str) (o : ReqOptionsNoBody) (cfg : RequestConfig)
    (obody : Option Str) (raw : RawResponse) (f g : Fault)
    (hreq : runRequestInterceptors env (initialConfig env .GET ep (optionsOfNoBody o)) = .ok cfg)
    (hbody : bodyStringify env cfg = .ok obody)
    (hfetch : env.fetch cfg.url cfg.method cfg.headers obody = .ok raw)
    (hfirst : runResponseInterceptors env (classify raw.status (responseDataOf raw)) = .error f)
    (hsecond : runResponseInterceptors env (networkEnvelope f) = .error g) :
    (get env ep o).1 = .error g := by
  have htry : requestTry env .GET ep (optionsOfNoBody o) = (.error f, 1) := by
    have hb : jsTruthy (optionsOfNoBody o).body = false := rfl
    simp [requestTry, hb, hreq, hbody, requestFetch, hfetch, hfirst]
  simp [get, request, htry, hsecond]

theorem c2_theorem_witness :
    runResponseInterceptors envRespAlwaysThrow (networkEnvelope boomFault) = .error boomFault ∧
    (get envRespAlwaysThrow [] {}).1 = .error boomFault :=
  ⟨rfl,
   c2_theorem envRespAlwaysThrow [] {}
     (initialConfig envRespAlwaysThrow .GET [] (optionsOfNoBody {})) none
     { status := 200, jsonBody := some .null, textBody := [] } boomFault boomFault
     rfl rfl rfl rfl rfl⟩

/-- C3 (counterexample): the primitive body `false` is falsy, so the
`options.body && !validateRequestBody(options.body)` guard skips
validation entirely: no VALIDATION_ERROR is produced and the transport is
invoked once. -/
theorem c3_counterexample :
    isPrimitiveBody (JsValue.bool false) = true ∧
    (post baseEnv [] (JsValue.bool false) {}).2 = 1 ∧
    (post baseEnv [] (JsValue.bool false) {}).1 =
      .ok { success := true, data := some Json.null, error := none } :=
  ⟨rfl, rfl, rfl⟩

/-- C3 (amended): for every truthy primitive body (non-empty string,
non-zero number, `true`), the pipeline returns the VALIDATION_ERROR
envelope and the transport capability is never invoked. -/
theorem c3_theorem (env : Env) (m : HttpMethod) (ep : Str) (o : ReqOptions)
    (hprim : isPrimitiveBody o.body = true) (htruthy : jsTruthy o.body = true) :
    request env m ep o = (.ok validationEnvelope, 0) := by
  have hval : validateRequestBody o.body = false := by
    cases hb : o.body <;> simp_all [isPrimitiveBody, validateRequestBody]
  simp [request, requestTry, htruthy, hval]

theorem c3_theorem_witness :
    isPrimitiveBody (JsValue.str (('x') :: [])) = true ∧
    jsTruthy (JsValue.str (('x') :: [])) = true ∧
    request baseEnv .POST [] { body := JsValue.str (('x') :: []) } = (.ok validationEnvelope, 0) :=
  ⟨rfl, rfl, c3_theorem baseEnv .POST [] { body := JsValue.str (('x') :: []) } rfl rfl⟩

/-- C5: when the transport invocation itself rejects (and the request made
it to the transport), the top-level operation resolves normally (given no
response interceptor faults), returning the NETWORK_ERROR envelope passed
through the response-interceptor chain (the envelope itself when none are
registered), and the transport was invoked exactly once. -/
theorem c5_theorem (env : Env) (m : HttpMethod) (ep : Str) (o : ReqOptions)
    (cfg : RequestConfig) (obody : Option Str) (f : Fault)
    (hval : (jsTruthy o.body && ! validateRequestBody o.body) = false)
    (hreq : runRequestInterceptors env (initialConfig env m ep o) = .ok cfg)
    (hbody : bodyStringify env cfg = .ok obody)
    (hfetch : env.fetch cfg.url cfg.method cfg.headers obody = .error f)
    (htotal : ∀ E : ApiResponse, resultIsOk (runResponseInterceptors env E) = true) :
    resultIsOk (request env m ep o).1 = true ∧
    (request env m ep o).1 = runResponseInterceptors env (networkEnvelope f) ∧
    (request env m ep o).2 = 1 ∧
    (env.responseInterceptors = [] → (request env m ep o).1 = .ok (networkEnvelope f)) ∧
    (networkEnvelope f).success = false ∧
    errorTypeOf (networkEnvelope f) = some .NETWORK_ERROR := by
  have htry : requestTry env m ep o = (.error f, 1) := by
    simp [requestTry, hval, hreq, hbody, requestFetch, hfetch]
  have hmain : request env m ep o = (runResponseInterceptors env (networkEnvelope f), 1) := by
    simp [request, htry]
  refine ⟨?_, ?_, ?_, ?_, rfl, rfl⟩
  · rw [hmain]; exact htotal _
  · rw [hmain]
  · rw [hmain]
  · intro h; rw [hmain]; simp [runResponseInterceptors, h, runChain]

theorem c5_theorem_witness :
    envFetchFail.fetch (initialConfig envFetchFail .GET [] {}).url .GET
      (initialConfig envFetchFail .GET [] {}).headers none = .error refusedFault ∧
    (resultIsOk (request envFetchFail .GET [] {}).1 = true ∧
     (request envFetchFail .GET [] {}).1 = runResponseInterceptors envFetchFail (networkEnvelope refusedFault) ∧
     (request envFetchFail .GET [] {}).2 = 1 ∧
     (envFetchFail.responseInterceptors = [] →
       (request envFetchFail .GET [] {}).1 = .ok (networkEnvelope refusedFault)) ∧
     (networkEnvelope refusedFault).success = false ∧
     errorTypeOf (networkEnvelope refusedFault) = some .NETWORK_ERROR) :=
  ⟨rfl,
   c5_theorem envFetchFail .GET [] {} (initialConfig envFetchFail .GET [] {}) none refusedFault
     rfl rfl rfl rfl (fun _ => rfl)⟩

/-- C6: the interceptor chains are left-to-right sequential composition:
the empty chain is the identity, a chain step feeds each interceptor's
result to the next, registration appends at the end of the list (so
registering T1 then T2 applies T1 first, then T2 to T1's output), for both
the request-interceptor and the response-interceptor chain. -/
theorem c6_theorem :
    (∀ (α : Type) (x : α), runChain ([] : List (α → Except Fault α)) x = Except.ok x) ∧
    (∀ (α : Type) (t : α → Except Fault α) (ts : List (α → Except Fault α)) (x : α),
        runChain (t :: ts) x = (t x).bind fun y => runChain ts y) ∧
    (∀ (α : Type) (ts : List (α → Except Fault α)) (t : α → Except Fault α) (x : α),
        runChain (ts ++ [t]) x = (runChain ts x).bind t) ∧
    (∀ (env : Env) (t : RequestConfig → Except Fault RequestConfig) (c : RequestConfig),
        runRequestInterceptors (addRequestInterceptor env t) c =
          (runRequestInterceptors env c).bind t) ∧
    (∀ (env : Env) (t : ApiResponse → Except Fault ApiResponse) (r : ApiResponse),
        runResponseInterceptors (addResponseInterceptor env t) r =
          (runResponseInterceptors env r).bind t) := by
  refine ⟨fun α x => rfl, ?_, ?_, ?_, ?_⟩
  · intro α t ts x; cases h : t x <;> simp [runChain, h, Except.bind]
  · intro α ts t x; exact runChain_append ts t x
  · intro env t c
    simpa [runRequestInterceptors, addRequestInterceptor] using
      runChain_append env.requestInterceptors t c
  · intro env t r
    simpa [runResponseInterceptors, addResponseInterceptor] using
      runChain_append env.responseInterceptors t r

/-- C8: every envelope produced by the response classifier, the two
validation paths and the network-error path satisfies the invariant:
`success` is true iff `error` is absent, and exactly one of `data`/`error`
is populated. -/
theorem c8_theorem :
    (∀ (status : Nat) (payload : Json), envelopeInvariant (classify status payload)) ∧
    envelopeInvariant validationEnvelope ∧
    (∀ e : Fault, envelopeInvariant (stringifyEnvelope e)) ∧
    (∀ f : Fault, envelopeInvariant (networkEnvelope f)) := by
  refine ⟨?_, ⟨rfl, rfl⟩, fun e => ⟨rfl, rfl⟩, fun f => ⟨rfl, rfl⟩⟩
  intro status payload
  cases h : responseOk status <;> simp [classify, h, envelopeInvariant]

/-- C10: when the transport resolved and a response interceptor rejects
during the first chain run, the catch handler converts the fault into the
NETWORK_ERROR envelope and runs the whole chain a second time on it; the
call returns that second run's outcome (so only a second-run fault
propagates), with exactly one transport invocation. -/
theorem c10_theorem (env : Env) (m : HttpMethod) (ep : Str) (o : ReqOptions)
    (cfg : RequestConfig) (obody : Option Str) (raw : RawResponse) (f : Fault)
    (hval : (jsTruthy o.body && ! validateRequestBody o.body) = false)
    (hreq : runRequestInterceptors env (initialConfig env m ep o) = .ok cfg)
    (hbody : bodyStringify env cfg = .ok obody)
    (hfetch : env.fetch cfg.url cfg.method cfg.headers obody = .ok raw)
    (hfirst : runResponseInterceptors env (classify raw.status (responseDataOf raw)) = .error f) :
    request env m ep o = (runResponseInterceptors env (networkEnvelope f), 1) ∧
    (networkEnvelope f).success = false ∧
    errorTypeOf (networkEnvelope f) = some .NETWORK_ERROR := by
  have htry : requestTry env m ep o = (.error f, 1) := by
    simp [requestTry, hval, hreq, hbody, requestFetch, hfetch, hfirst]
  exact ⟨by simp [request, htry], rfl, rfl⟩

/-- C4 (counterexample): a non-2xx payload whose `message` field is present
but equal to the empty string.  The claim says the envelope message is the
payload's message field whenever it is present; the code's
`responseData?.message || "Request failed"` falls back on any falsy value,
so the envelope message is the fallback text, not the present empty
string. -/
theorem c4_counterexample :
    getMessage (Json.obj [(("message").data, Json.str [])]) = some (Json.str []) ∧
    (classify 400 (Json.obj [(("message").data, Json.str [])])).error.map (fun e => e.message)
      = some (Json.str ("Request failed").data) ∧
    ("Request failed").data ≠ ([] : Str) :=
  ⟨rfl, rfl, by decide⟩

/-- C4 (amended): the classifier maps a status outside the 2xx range to a
success-false API_ERROR envelope whose message is the payload's message
field when that field is present and truthy ("Request failed" otherwise),
whose status is the numeric status and whose details are the full payload;
a 2xx status maps to a success-true envelope holding the payload. -/
theorem c4_theorem : ∀ (status : Nat) (payload : Json),
    classify status payload = classifySpecAmended status payload := by
  intro status payload
  by_cases h : 200 ≤ status ∧ status < 300
  · have hok : responseOk status = true := by
      simp only [responseOk, Bool.and_eq_true, decide_eq_true_eq]
      omega
    simp [classify, classifySpecAmended, hok, h]
  · have hok : responseOk status = false := by
      simp only [responseOk, Bool.and_eq_false_iff, decide_eq_false_iff_not]
      omega
    cases hm : getMessage payload <;>
      simp [classify, classifySpecAmended, hok, h, jsOrDefault, hm]

/-- C7: the query step of buildUrl appends nothing when the query mapping
is empty and otherwise appends a question mark followed by the
percent-encoded pairs (one per entry, joined by ampersands); a `:name`
token that does not occur cannot be, and an unresolved token's key not in
the mapping leaves the string unchanged at its substitution step. -/
theorem c7_theorem :
    (∀ (base ep : Str) (pp qps : List (Str × Str)),
        buildUrl base ep pp qps = buildUrl base ep pp [] ++ querySuffixSpec qps) ∧
    (∀ qps : List (Str × Str), (qps.map queryPair).length = qps.length) ∧
    (∀ u k v : Str, hasSubstr (':' :: k) u = false →
        replaceFirst (':' :: k) (encodeURIComponent v) u = u) := by
  refine ⟨?_, fun qps => by simp, fun u k v h => replaceFirst_of_not_hasSubstr _ _ _ h⟩
  intro base ep pp qps
  cases qps with
  | nil => simp [buildUrl, querySuffixSpec, queryString, joinSep]
  | cons q rest =>
    have hq : queryString (q :: rest) ≠ [] := by
      rw [queryString, List.map_cons]
      exact joinSep_cons_ne_nil _ _ _ (queryPair_ne_nil q)
    rw [buildUrl, buildUrl, querySuffixSpec]
    rw [queryString, List.map_cons] at hq
    simp only [queryString, List.map_nil, List.map_cons, joinSep, if_neg hq]
    simp

/-- C9 (counterexample): endpoint template "a::x" with the ordered path
mapping x ↦ "v", v ↦ "W".  Under the claim's no-rescan reading the result
is "a:v" (the "v" produced by the first substitution is not scanned
again); the code rescans the whole evolving string, the later token ":v"
matches across the template-colon/substituted-text boundary, and buildUrl
returns "aW". -/
theorem c9_counterexample :
    pathSubstClaimed [(("x").data, ("v").data), (("v").data, ("W").data)] (("a::x").data)
      = ("a:v").data ∧
    buildUrl [] (("a::x").data) [(("x").data, ("v").data), (("v").data, ("W").data)] []
      = ("aW").data ∧
    ("a:v").data ≠ ("aW").data :=
  ⟨rfl, rfl, by decide⟩

/-- C9 (amended): for each key, in mapping order, buildUrl replaces the
first occurrence of the token `:key` in the current URL string with the
percent-encoded value (the string around the occurrence is preserved, and
a string without the token is unchanged); the encoded value never contains
a colon, so a substituted value never contains a `:otherkey` token —
but the scan covers the whole evolving string, so substituted text is not
shielded when the template supplies an adjacent colon. -/
theorem c9_theorem :
    (∀ (u k v : Str) (rest : List (Str × Str)),
        pathSubst ((k, v) :: rest) u =
          pathSubst rest (replaceFirst (':' :: k) (encodeURIComponent v) u)) ∧
    (∀ v : Str, ∀ c ∈ encodeURIComponent v, c ≠ ':') ∧
    (∀ pat rep u pre post : Str, splitFirst pat u = some (pre, post) →
        replaceFirst pat rep u = pre ++ rep ++ post ∧ u = pre ++ pat ++ post) ∧
    (∀ pat rep u : Str, splitFirst pat u = none → replaceFirst pat rep u = u) :=
  ⟨fun _ _ _ _ => rfl, encode_ne_colon,
   fun pat rep u pre post h => splitFirst_some pat rep u pre post h,
   fun pat rep u h => splitFirst_none pat rep u h⟩

theorem c9_theorem_witness :
    splitFirst (':' :: ("id").data) (("/u/:id").data) = some (("/u/").data, ([] : Str)) ∧
    (replaceFirst (':' :: ("id").data) (encodeURIComponent (("9").data)) (("/u/:id").data)
       = ("/u/").data ++ encodeURIComponent (("9").data) ++ ([] : Str) ∧
     ("/u/:id").data = ("/u/").data ++ (':' :: ("id").data) ++ ([] : Str)) :=
  ⟨by decide,
   c9_theorem.2.2.1 (':' :: ("id").data) (encodeURIComponent (("9").data)) (("/u/:id").data)
     (("/u/").data) ([] : Str) (by decide)⟩

theorem c7_theorem_witness :
    hasSubstr (':' :: ("id").data) (("/users/list").data) = false ∧
    replaceFirst (':' :: ("id").data) (encodeURIComponent (("7").data)) (("/users/list").data)
      = ("/users/list").data :=
  ⟨by decide,
   c7_theorem.2.2 (("/users/list").data) (("id").data) (("7").data) (by decide)⟩

theorem c10_theorem_witness :
    runResponseInterceptors envRespThrowOnSuccess
      (classify 200 (responseDataOf { status := 200, jsonBody := some .null, textBody := [] }))
      = .error boomFault ∧
    (request envRespThrowOnSuccess .GET [] {} =
       (runResponseInterceptors envRespThrowOnSuccess (networkEnvelope boomFault), 1) ∧
     (networkEnvelope boomFault).success = false ∧
     errorTypeOf (networkEnvelope boomFault) = some .NETWORK_ERROR) :=
  ⟨rfl,
   c10_theorem envRespThrowOnSuccess .GET [] {}
     (initialConfig envRespThrowOnSuccess .GET [] {}) none
     { status := 200, jsonBody := some .null, textBody := [] } boomFault
     rfl rfl rfl rfl rfl⟩

end FlashRequest
